import Mathlib

/-!
Verification development for the `artvision-agency/screenshot-service`
repository, centred on `src/gofullpage_server.js`.

The server's `capture` method is embedded as a pure Lean function over an
explicit environment (`BrowserEnv`) that decides the outcome of each external
puppeteer call, and it additionally returns the ordered trace of browser
calls it performed (`BrowserCall`), so that resource handling (page open and
close) and call ordering are provable facts.

Components of the specification kernel that exist only in the spec and not
in `src/` (the Batch Scheduler with its bounded pool, `runBatch` validation,
and the Change Detector `compareArtifacts`) are modelled from the spec text;
their doc comments say so explicitly.
-/

/-- One call into the external Browser Capability (puppeteer), as performed
by `capture` in `src/gofullpage_server.js`. -/
inductive BrowserCall where
  | newPage : BrowserCall
  | setViewport (width height : Nat) (isMobile : Bool) : BrowserCall
  | goto (url : String) (timeoutMs : Nat) : BrowserCall
  | waitDelay (ms : Nat) : BrowserCall
  | hideStickyEval : BrowserCall
  | getDimensions : BrowserCall
  | pdf : BrowserCall
  | screenshot (imgType : String) (fullPage : Bool) : BrowserCall
  | closePage : BrowserCall
deriving DecidableEq, Repr

/-- Structured error taxonomy: validation before browser work, plus the
per-request navigation/timeout/eval/capture failures surfaced by the
puppeteer calls inside `capture`. -/
inductive CapError where
  | validation (msg : String) : CapError
  | timeout : CapError
  | navigation (msg : String) : CapError
  | evalError (msg : String) : CapError
  | captureError (msg : String) : CapError
deriving DecidableEq, Repr

/-- Options accepted by `GoFullPageServer.capture` (the destructured
`options` object, lines 43-52), with the same defaults. -/
structure CaptureOptions where
  targetUrl : String
  format : String
  width : Nat
  height : Nat
  mobile : Bool
  hideSticky : Bool
  delay : Nat
  timeout : Nat
deriving DecidableEq, Repr

/-- Rendered page dimensions and title, as read by the `page.evaluate`
call of lines 93-103. -/
structure PageDims where
  width : Nat
  height : Nat
  title : String
deriving DecidableEq, Repr

/-- The metadata object built on lines 124-134 of the success return value
(the `timestamp` field, a wall-clock read, is omitted). -/
structure CaptureMetadata where
  url : String
  format : String
  pageWidth : Nat
  pageHeight : Nat
  title : String
  viewport : String
  mobile : Bool
  size : Nat
deriving DecidableEq, Repr

/-- The success return value of `capture` (lines 121-135): the payload
bytes plus metadata. -/
structure CaptureSuccess where
  data : List Nat
  metadata : CaptureMetadata
deriving DecidableEq, Repr

/-- Environment deciding the outcome of each external puppeteer call:
how long navigation would take, whether it fails, whether the in-page
evaluations fail, the page dimensions, and the bytes produced by
`page.pdf` / `page.screenshot`. -/
structure BrowserEnv where
  navTime : Nat
  navResult : Except String Unit
  hideStickyResult : Except String Unit
  dimsResult : Except String PageDims
  pdfResult : Except String (List Nat)
  shotResult : String → Except String (List Nat)

/-- The `page.goto` call of lines 69-72: puppeteer raises a timeout error
when navigation takes longer than the `timeout` option, otherwise the
navigation either succeeds or fails with a navigation error. -/
def gotoStep (env : BrowserEnv) (o : CaptureOptions) : Except CapError Unit :=
  if o.timeout < env.navTime then Except.error CapError.timeout
  else
    match env.navResult with
    | Except.ok _ => Except.ok ()
    | Except.error m => Except.error (CapError.navigation m)

/-- The success value assembled on lines 121-135: payload bytes together
with metadata whose `size` field is `result.length`. -/
def mkSuccess (o : CaptureOptions) (dims : PageDims) (bytes : List Nat) :
    CaptureSuccess :=
  { data := bytes
    metadata :=
      { url := o.targetUrl
        format := o.format
        pageWidth := dims.width
        pageHeight := dims.height
        title := dims.title
        viewport := toString o.width ++ "x" ++ toString o.height
        mobile := o.mobile
        size := bytes.length } }

/-- The body of the `try` block of `capture` (lines 60-135): set the
viewport, navigate, optionally wait `delay`, optionally hide sticky
elements, read dimensions, then render a PDF when `format === 'pdf'`
or otherwise a full-page screenshot (`jpeg` when `format === 'jpeg'`,
`png` in every other case).  Returns the outcome together with the trace
of browser calls performed. -/
def captureBody (env : BrowserEnv) (o : CaptureOptions) :
    Except CapError CaptureSuccess × List BrowserCall :=
  let vp := BrowserCall.setViewport o.width o.height o.mobile
  let gt := BrowserCall.goto o.targetUrl o.timeout
  match gotoStep env o with
  | Except.error e => (Except.error e, [vp, gt])
  | Except.ok _ =>
    let dtr : List BrowserCall :=
      if 0 < o.delay then [BrowserCall.waitDelay o.delay] else []
    let htr : List BrowserCall :=
      if o.hideSticky then [BrowserCall.hideStickyEval] else []
    match (if o.hideSticky then env.hideStickyResult else Except.ok ()) with
    | Except.error m =>
        (Except.error (CapError.evalError m),
         [vp, gt] ++ dtr ++ [BrowserCall.hideStickyEval])
    | Except.ok _ =>
      match env.dimsResult with
      | Except.error m =>
          (Except.error (CapError.evalError m),
           [vp, gt] ++ dtr ++ htr ++ [BrowserCall.getDimensions])
      | Except.ok dims =>
        if o.format = "pdf" then
          (match env.pdfResult with
           | Except.error m => Except.error (CapError.captureError m)
           | Except.ok bytes => Except.ok (mkSuccess o dims bytes),
           [vp, gt] ++ dtr ++ htr ++
             [BrowserCall.getDimensions, BrowserCall.pdf])
        else
          let t := if o.format = "jpeg" then "jpeg" else "png"
          (match env.shotResult t with
           | Except.error m => Except.error (CapError.captureError m)
           | Except.ok bytes => Except.ok (mkSuccess o dims bytes),
           [vp, gt] ++ dtr ++ htr ++
             [BrowserCall.getDimensions, BrowserCall.screenshot t true])

/-- `GoFullPageServer.capture` (lines 42-140): reject a missing/empty URL
before any browser work; otherwise open a page, run the body, and close
the page in a `finally` whatever the body's outcome. -/
def capture (env : BrowserEnv) (o : CaptureOptions) :
    Except CapError CaptureSuccess × List BrowserCall :=
  if o.targetUrl = "" then
    (Except.error (CapError.validation "URL is required"), [])
  else
    let body := captureBody env o
    (body.1, BrowserCall.newPage :: body.2 ++ [BrowserCall.closePage])

/-- Split a character list at the first `:`, requiring it to begin a
`://` separator; yields the scheme and the remainder. -/
def splitScheme : List Char → Option (List Char × List Char)
  | [] => none
  | c :: cs =>
    if c = ':' then
      match cs with
      | '/' :: '/' :: rest => some ([], rest)
      | _ => none
    else
      match splitScheme cs with
      | some (sch, rest) => some (c :: sch, rest)
      | none => none

/-- Modelled from the spec: a syntactically valid absolute URL in the sense
of §3 (`url`: non-empty, a syntactically valid absolute URL), read as a
non-empty scheme, then `://`, then a non-empty remainder (`splitScheme`
locates the first `:` and requires it to start `://`).  Used only to state
claims about URL validation; the source performs no such check. -/
def isValidAbsoluteUrl (s : String) : Bool :=
  match splitScheme s.data with
  | some (sch, rest) => decide (sch ≠ []) && decide (rest ≠ [])
  | none => false

/-- A CaptureRequest of the spec's data model (§3), carrying the fields the
server's `capture` consumes plus the batch `outputKey`. -/
structure CaptureRequest where
  url : String
  width : Nat
  height : Nat
  mobile : Bool
  format : String
  delayMs : Nat
  timeoutMs : Nat
  outputKey : String
deriving DecidableEq, Repr

/-- Status of a CaptureResult (§3). -/
inductive Status where
  | succeeded : Status
  | failed : Status
deriving DecidableEq, Repr

/-- A CaptureResult of the spec's data model (§3): per-request outcome with
payload and dimensions on success, a structured error on failure. -/
structure CaptureResult where
  outputKey : String
  status : Status
  payload : Option (List Nat)
  pageWidth : Option Nat
  pageHeight : Option Nat
  error : Option CapError
deriving DecidableEq, Repr

/-- The capture options the server derives from a request (`hideSticky`
keeps its default `true`, lines 49). -/
def toOptions (r : CaptureRequest) : CaptureOptions :=
  { targetUrl := r.url
    format := r.format
    width := r.width
    height := r.height
    mobile := r.mobile
    hideSticky := true
    delay := r.delayMs
    timeout := r.timeoutMs }

/-- Per-request result construction: a successful `capture` yields a
SUCCEEDED result carrying the payload and the rendered dimensions; a
thrown error is caught (as in `main`, lines 232-239) and recorded as a
FAILED result with the structured error and no payload or dimensions. -/
def resultOf (env : BrowserEnv) (r : CaptureRequest) : CaptureResult :=
  match (capture env (toOptions r)).1 with
  | Except.ok s =>
      { outputKey := r.outputKey
        status := Status.succeeded
        payload := some s.data
        pageWidth := some s.metadata.pageWidth
        pageHeight := some s.metadata.pageHeight
        error := none }
  | Except.error e =>
      { outputKey := r.outputKey
        status := Status.failed
        payload := none
        pageWidth := none
        pageHeight := none
        error := some e }

/-- Modelled from the spec: `runBatch` of §4.1/§6 is not part of `src/`
(the repository exposes only per-request HTTP handling).  Following §4.1,
the batch is rejected outright — with no Browser Capability call — when an
`outputKey` is duplicated or the concurrency limit is below 1; otherwise
every request is executed and produces exactly one result, each request
against its own per-key environment, failures being recorded in that
request's result.  The second component is the full trace of Browser
Capability calls the batch performed. -/
def runBatch (envs : String → BrowserEnv) (reqs : List CaptureRequest)
    (n : Nat) : Except CapError (List CaptureResult) × List BrowserCall :=
  if n < 1 ∨ ¬ (reqs.map (fun r => r.outputKey)).Nodup then
    (Except.error (CapError.validation "invalid batch"), [])
  else
    (Except.ok (reqs.map (fun r => resultOf (envs r.outputKey) r)),
     (reqs.map (fun r => (capture (envs r.outputKey) (toOptions r)).2)).flatten)

/-- Modelled from the spec: the Batch Scheduler's execution state (§4.1,
§5) — the pool discipline is not part of `src/` (the server opens a page
per HTTP request with no pool).  `pending` are requests not yet started,
`running` are requests currently holding one checked-out page handle each,
`done` are collected results. -/
structure SchedState where
  pending : List CaptureRequest
  running : List CaptureRequest
  done : List CaptureResult

/-- Number of page handles checked out of the pool: one per running
request (§5: no task may hold more than one slot). -/
def checkedOut (s : SchedState) : Nat := s.running.length

/-- Initial scheduler state for a batch: nothing started. -/
def initState (reqs : List CaptureRequest) : SchedState :=
  { pending := reqs, running := [], done := [] }

/-- Modelled from the spec: one scheduler transition under concurrency
limit `c`.  A pending request may start only when a pool slot is free
(fewer than `c` handles checked out); a running request may finish at any
time, releasing its handle and recording its result. -/
inductive SchedStep (c : Nat) : SchedState → SchedState → Prop where
  | start (r : CaptureRequest) (rest running : List CaptureRequest)
      (done : List CaptureResult) (hfree : running.length < c) :
      SchedStep c ⟨r :: rest, running, done⟩ ⟨rest, r :: running, done⟩
  | finish (pending pre post : List CaptureRequest)
      (done : List CaptureResult) (r : CaptureRequest) (res : CaptureResult) :
      SchedStep c ⟨pending, pre ++ r :: post, done⟩
        ⟨pending, pre ++ post, res :: done⟩

/-- Reflexive-transitive closure of scheduler steps. -/
inductive SchedReaches (c : Nat) : SchedState → SchedState → Prop where
  | refl (s : SchedState) : SchedReaches c s s
  | tail (s t u : SchedState) :
      SchedReaches c s t → SchedStep c t u → SchedReaches c s u

/-- An Artifact (§3): a stored payload addressed by output key and
timestamp. -/
structure Artifact where
  outputKey : String
  timestamp : Nat
  payload : List Nat
deriving DecidableEq, Repr

/-- `size` of an Artifact (§4.3): the byte length of the stored payload. -/
def artifactSize (a : Artifact) : Nat := a.payload.length

/-- A ChangeRecord (§3): change signal plus magnitude. -/
structure ChangeRecord where
  changed : Bool
  differencePercent : ℚ
deriving DecidableEq, Repr

/-- The Change Detector's default threshold (§4.3). -/
def defaultThreshold : ℚ := 5

/-- Modelled from the spec: the Change Detector (§4.3) is not part of
`src/`.  `differencePercent = 100 * |size(current) - size(previous)| /
max(size(previous), 1)` over payload byte lengths, and
`changed = differencePercent > threshold`. -/
def compareArtifacts (threshold : ℚ) (previous current : Artifact) :
    ChangeRecord :=
  let dp : ℚ :=
    100 * ((Int.natAbs ((artifactSize current : Int) - (artifactSize previous : Int)) : ℚ))
      / ((max (artifactSize previous) 1 : Nat) : ℚ)
  { changed := decide (dp > threshold), differencePercent := dp }

/-- A browser environment in which every external call succeeds. -/
def envAllOk : BrowserEnv :=
  { navTime := 100
    navResult := Except.ok ()
    hideStickyResult := Except.ok ()
    dimsResult := Except.ok { width := 1280, height := 4000, title := "Example" }
    pdfResult := Except.ok [1, 2, 3, 4]
    shotResult := fun _ => Except.ok [10, 20, 30] }

/-- A browser environment in which navigation fails (unreachable host). -/
def envNavFail : BrowserEnv :=
  { envAllOk with navResult := Except.error "net::ERR_NAME_NOT_RESOLVED" }

/-- A browser environment in which navigation needs longer than any
timeout used in the examples. -/
def envNavSlow : BrowserEnv :=
  { envAllOk with navTime := 50000 }

/-- Capture options with the server's defaults for the given URL. -/
def defaultOpts (u : String) : CaptureOptions :=
  { targetUrl := u
    format := "png"
    width := 1280
    height := 800
    mobile := false
    hideSticky := true
    delay := 0
    timeout := 30000 }

/-- Options with an empty URL. -/
def optsEmptyUrl : CaptureOptions := defaultOpts ""

/-- Options whose URL is non-empty but not a syntactically valid absolute
URL. -/
def optsBadUrl : CaptureOptions := defaultOpts "not a url"

/-- Well-formed default options. -/
def opts1 : CaptureOptions := defaultOpts "https://example.com"

/-- Options whose delay (60000 ms) exceeds their timeout (1000 ms). -/
def optsLongDelay : CaptureOptions :=
  { defaultOpts "https://example.com" with delay := 60000, timeout := 1000 }

/-- Options with an unrecognized format value. -/
def optsWebp : CaptureOptions :=
  { defaultOpts "https://example.com" with format := "webp" }

/-- A batch request with default viewport and timing for the given key and
URL. -/
def mkReq (k u : String) : CaptureRequest :=
  { url := u
    width := 1280
    height := 800
    mobile := false
    format := "png"
    delayMs := 0
    timeoutMs := 30000
    outputKey := k }

/-- A five-request batch; the request keyed `k3` points at an unreachable
host. -/
def reqs5 : List CaptureRequest :=
  [mkReq "k1" "https://a.example", mkReq "k2" "https://b.example",
   mkReq "k3" "https://unreachable.invalid", mkReq "k4" "https://d.example",
   mkReq "k5" "https://e.example"]

/-- Per-key environments for `reqs5`: navigation fails for `k3` only. -/
def envs5 : String → BrowserEnv :=
  fun k => if k = "k3" then envNavFail else envAllOk

/-- A batch with a duplicated output key. -/
def reqsDup : List CaptureRequest :=
  [mkReq "k" "https://a.example", mkReq "k" "https://b.example"]

example : (capture envAllOk opts1).1
    = Except.ok (mkSuccess opts1 { width := 1280, height := 4000, title := "Example" } [10, 20, 30]) := by
  rfl

example : (capture envAllOk optsEmptyUrl).2 = [] := by rfl

example : isValidAbsoluteUrl "not a url" = false := by rfl

example : isValidAbsoluteUrl "https://example.com" = true := by rfl

example : (resultOf envNavFail (mkReq "k3" "https://unreachable.invalid")).status = Status.failed := by rfl

/-- The body of the `try` block never opens a page itself: `newPage` does
not occur in its trace. -/
theorem newPage_not_mem_captureBody (env : BrowserEnv) (o : CaptureOptions) :
    BrowserCall.newPage ∉ (captureBody env o).2 := by
  unfold captureBody
  repeat' split
  all_goals simp_all [List.mem_append]

/-- The body of the `try` block never closes a page itself: `closePage`
does not occur in its trace. -/
theorem closePage_not_mem_captureBody (env : BrowserEnv) (o : CaptureOptions) :
    BrowserCall.closePage ∉ (captureBody env o).2 := by
  unfold captureBody
  repeat' split
  all_goals simp_all [List.mem_append]

/-- When the URL check passes, the capture trace is exactly one `newPage`,
the body's calls, and a final `closePage`. -/
theorem capture_trace_shape (env : BrowserEnv) (o : CaptureOptions)
    (h : o.targetUrl ≠ "") :
    (capture env o).2
      = BrowserCall.newPage :: (captureBody env o).2 ++ [BrowserCall.closePage] := by
  simp [capture, h]

/-- C3: every capture attempt that opens a page handle closes it before the
attempt completes, on success and on every failure: the trace holds as
many `closePage` calls as `newPage` calls, and whenever a page was opened
the final browser call is `closePage`. -/
theorem capture_closes_every_page (env : BrowserEnv) (o : CaptureOptions) :
    (capture env o).2.count BrowserCall.newPage
        = (capture env o).2.count BrowserCall.closePage ∧
    (BrowserCall.newPage ∈ (capture env o).2 →
        (capture env o).2.getLast? = some BrowserCall.closePage) := by
  by_cases h : o.targetUrl = ""
  · simp [capture, h]
  · rw [capture_trace_shape env o h]
    have hnp := newPage_not_mem_captureBody env o
    have hcp := closePage_not_mem_captureBody env o
    constructor
    · simp [List.count_cons, List.count_append,
        List.count_eq_zero_of_not_mem hnp, List.count_eq_zero_of_not_mem hcp]
    · intro _
      rw [show BrowserCall.newPage :: (captureBody env o).2 ++ [BrowserCall.closePage]
            = (BrowserCall.newPage :: (captureBody env o).2) ++ [BrowserCall.closePage] from rfl]
      exact List.getLast?_concat _



/-- C4 counterexample: with the URL `"not a url"` — non-empty but not a
syntactically valid absolute URL — `capture` is not rejected with a
validation error; the browser work proceeds (a page is opened and
navigation is attempted) and the capture completes successfully. -/
theorem capture_no_url_syntax_validation :
    isValidAbsoluteUrl "not a url" = false ∧
    optsBadUrl.targetUrl ≠ "" ∧
    BrowserCall.newPage ∈ (capture envAllOk optsBadUrl).2 ∧
    BrowserCall.goto "not a url" 30000 ∈ (capture envAllOk optsBadUrl).2 ∧
    (capture envAllOk optsBadUrl).1
      = Except.ok (mkSuccess optsBadUrl
          { width := 1280, height := 4000, title := "Example" } [10, 20, 30]) := by
  refine ⟨by rfl, by decide, ?_, ?_, by rfl⟩
  · show BrowserCall.newPage ∈ (capture envAllOk optsBadUrl).2
    rw [show (capture envAllOk optsBadUrl).2
          = [BrowserCall.newPage,
             BrowserCall.setViewport 1280 800 false,
             BrowserCall.goto "not a url" 30000,
             BrowserCall.hideStickyEval,
             BrowserCall.getDimensions,
             BrowserCall.screenshot "png" true,
             BrowserCall.closePage] from rfl]
    decide
  · rw [show (capture envAllOk optsBadUrl).2
          = [BrowserCall.newPage,
             BrowserCall.setViewport 1280 800 false,
             BrowserCall.goto "not a url" 30000,
             BrowserCall.hideStickyEval,
             BrowserCall.getDimensions,
             BrowserCall.screenshot "png" true,
             BrowserCall.closePage] from rfl]
    decide

/-- C4 amended: only an empty (missing) URL is rejected — with the
validation error and before any browser call; for every non-empty URL,
valid or not, no URL-syntax validation happens and a page is opened. -/
theorem capture_validates_only_empty_url (env : BrowserEnv)
    (o : CaptureOptions) :
    (o.targetUrl = "" →
      capture env o
        = (Except.error (CapError.validation "URL is required"), [])) ∧
    (o.targetUrl ≠ "" → BrowserCall.newPage ∈ (capture env o).2) := by
  constructor
  · intro h
    simp [capture, h]
  · intro h
    rw [capture_trace_shape env o h]
    exact List.mem_cons_self _ _

/-- Witness for `capture_validates_only_empty_url` at concrete inputs:
the empty URL is rejected before any browser call, and the ill-formed
URL `"not a url"` still leads to a page being opened. -/
theorem capture_validates_only_empty_url_witness :
    capture envAllOk optsEmptyUrl
        = (Except.error (CapError.validation "URL is required"), []) ∧
    BrowserCall.newPage ∈ (capture envAllOk optsBadUrl).2 :=
  ⟨(capture_validates_only_empty_url envAllOk optsEmptyUrl).1 rfl,
   (capture_validates_only_empty_url envAllOk optsBadUrl).2 (by decide)⟩

/-- C5 counterexample: with `delay = 60000` and `timeout = 1000`, the
waiting step lasts 60000 ms — far beyond `timeoutMs` — yet the attempt
does not fail with a timeout error: it succeeds.  Only navigation is
bounded by the timeout option. -/
theorem capture_delay_not_bounded_by_timeout :
    optsLongDelay.delay = 60000 ∧
    optsLongDelay.timeout = 1000 ∧
    BrowserCall.waitDelay 60000 ∈ (capture envAllOk optsLongDelay).2 ∧
    (capture envAllOk optsLongDelay).1
      = Except.ok (mkSuccess optsLongDelay
          { width := 1280, height := 4000, title := "Example" } [10, 20, 30]) := by
  refine ⟨by rfl, by rfl, ?_, by rfl⟩
  rw [show (capture envAllOk optsLongDelay).2
        = [BrowserCall.newPage,
           BrowserCall.setViewport 1280 800 false,
           BrowserCall.goto "https://example.com" 1000,
           BrowserCall.waitDelay 60000,
           BrowserCall.hideStickyEval,
           BrowserCall.getDimensions,
           BrowserCall.screenshot "png" true,
           BrowserCall.closePage] from rfl]
  decide

/-- C5 amended: the navigation step alone is bounded by `timeoutMs` — when
navigation needs longer than `timeoutMs`, the attempt fails with the
structured timeout error recorded as its result and stops right after the
navigation call; the `delayMs` wait and the capture step are not bounded
by `timeoutMs`. -/
theorem capture_timeout_bounds_navigation (env : BrowserEnv)
    (o : CaptureOptions) (hurl : o.targetUrl ≠ "")
    (hslow : o.timeout < env.navTime) :
    (capture env o).1 = Except.error CapError.timeout ∧
    (capture env o).2
      = [BrowserCall.newPage,
         BrowserCall.setViewport o.width o.height o.mobile,
         BrowserCall.goto o.targetUrl o.timeout,
         BrowserCall.closePage] := by
  have hg : gotoStep env o = Except.error CapError.timeout := by
    simp [gotoStep, hslow]
  constructor
  · simp [capture, hurl, captureBody, hg]
  · rw [capture_trace_shape env o hurl]
    simp [captureBody, hg]

/-- Witness for `capture_timeout_bounds_navigation`: a navigation needing
50000 ms against a 30000 ms timeout yields the timeout error. -/
theorem capture_timeout_bounds_navigation_witness :
    (capture envNavSlow opts1).1 = Except.error CapError.timeout ∧
    (capture envNavSlow opts1).2
      = [BrowserCall.newPage,
         BrowserCall.setViewport 1280 800 false,
         BrowserCall.goto "https://example.com" 30000,
         BrowserCall.closePage] :=
  capture_timeout_bounds_navigation envNavSlow opts1 (by decide) (by decide)

/-- C9: when `format` is neither `pdf` nor `jpeg` (absent values were
already defaulted to `png`), the capture performs a full-page PNG
screenshot — no format validation error exists — and succeeds whenever
the browser steps succeed. -/
theorem capture_unknown_format_gives_png (env : BrowserEnv)
    (o : CaptureOptions) (d : PageDims) (bytes : List Nat)
    (hurl : o.targetUrl ≠ "") (hpdf : o.format ≠ "pdf")
    (hjpeg : o.format ≠ "jpeg") (hnav : env.navTime ≤ o.timeout)
    (hnavr : env.navResult = Except.ok ())
    (hhide : env.hideStickyResult = Except.ok ())
    (hdims : env.dimsResult = Except.ok d)
    (hshot : env.shotResult "png" = Except.ok bytes) :
    (capture env o).1 = Except.ok (mkSuccess o d bytes) ∧
    BrowserCall.screenshot "png" true ∈ (capture env o).2 := by
  have hg : gotoStep env o = Except.ok () := by
    simp [gotoStep, Nat.not_lt.mpr hnav, hnavr]
  have hhs : (if o.hideSticky then env.hideStickyResult else Except.ok ())
      = Except.ok () := by
    cases o.hideSticky <;> simp [hhide]
  constructor
  · simp [capture, hurl, captureBody, hg, hhs, hdims, hpdf, hjpeg, hshot]
  · rw [capture_trace_shape env o hurl]
    simp [captureBody, hg, hhs, hdims, hpdf, hjpeg, List.mem_append]

/-- Witness for `capture_unknown_format_gives_png`: the unrecognized
format value `webp` produces a successful full-page PNG screenshot. -/
theorem capture_unknown_format_gives_png_witness :
    (capture envAllOk optsWebp).1
      = Except.ok (mkSuccess optsWebp
          { width := 1280, height := 4000, title := "Example" } [10, 20, 30]) ∧
    BrowserCall.screenshot "png" true ∈ (capture envAllOk optsWebp).2 :=
  capture_unknown_format_gives_png envAllOk optsWebp
    { width := 1280, height := 4000, title := "Example" } [10, 20, 30]
    (by decide) (by decide) (by decide) (by decide) rfl rfl rfl rfl

/-- C10: every successful capture reports `size` equal to the byte length
of the returned payload. -/
theorem capture_success_size_eq_length (env : BrowserEnv)
    (o : CaptureOptions) (s : CaptureSuccess)
    (h : (capture env o).1 = Except.ok s) :
    s.metadata.size = s.data.length := by
  simp only [capture] at h
  split at h
  · simp at h
  · simp only [captureBody] at h
    repeat' split at h
    all_goals try simp_all [mkSuccess]
    all_goals subst h
    all_goals rfl

/-- Witness for `capture_success_size_eq_length` at a concrete successful
capture. -/
theorem capture_success_size_eq_length_witness :
    (capture envAllOk opts1).1
      = Except.ok (mkSuccess opts1
          { width := 1280, height := 4000, title := "Example" } [10, 20, 30]) ∧
    (mkSuccess opts1 { width := 1280, height := 4000, title := "Example" }
        [10, 20, 30]).metadata.size
      = (mkSuccess opts1 { width := 1280, height := 4000, title := "Example" }
          [10, 20, 30]).data.length :=
  ⟨rfl, capture_success_size_eq_length envAllOk opts1 _ rfl⟩

/-- C6: a per-request result carries a payload and rendered dimensions
exactly when its status is SUCCEEDED, and carries a structured error
(with no payload and no dimensions) exactly when its status is FAILED. -/
theorem result_fields_iff_status (env : BrowserEnv) (r : CaptureRequest) :
    ((resultOf env r).status = Status.succeeded ↔
        (resultOf env r).payload.isSome = true) ∧
    ((resultOf env r).status = Status.succeeded ↔
        ((resultOf env r).pageWidth.isSome = true ∧
         (resultOf env r).pageHeight.isSome = true)) ∧
    ((resultOf env r).status = Status.failed ↔
        (resultOf env r).error.isSome = true) ∧
    ((resultOf env r).status = Status.failed ↔
        ¬ (resultOf env r).status = Status.succeeded) := by
  rcases hc : (capture env (toOptions r)).1 with e | s <;>
    simp [resultOf, hc]

/-- Witness for `capture_closes_every_page` at a concrete capture: the
page opened for a default capture is closed, and the last browser call is
the close. -/
theorem capture_closes_every_page_witness :
    (capture envAllOk opts1).2.count BrowserCall.newPage
        = (capture envAllOk opts1).2.count BrowserCall.closePage ∧
    (capture envAllOk opts1).2.getLast? = some BrowserCall.closePage :=
  ⟨(capture_closes_every_page envAllOk opts1).1,
   (capture_closes_every_page envAllOk opts1).2 (by
     rw [capture_trace_shape envAllOk opts1 (by decide)]
     exact List.mem_cons_self _ _)⟩

/-- C2: a valid batch returns one result per request — request `i`'s
result computed purely from request `i` and its own environment, so a
failing request can neither abort nor alter a sibling's result — and any
capture error is recorded inside that request's FAILED result. -/
theorem runBatch_complete_and_isolated (envs : String → BrowserEnv)
    (reqs : List CaptureRequest) (n : Nat)
    (hkeys : (reqs.map (fun r => r.outputKey)).Nodup) (hn : 1 ≤ n) :
    (runBatch envs reqs n).1
      = Except.ok (reqs.map (fun r => resultOf (envs r.outputKey) r)) ∧
    (reqs.map (fun r => resultOf (envs r.outputKey) r)).length
      = reqs.length ∧
    (∀ r, r ∈ reqs → ∀ e,
      (capture (envs r.outputKey) (toOptions r)).1 = Except.error e →
      resultOf (envs r.outputKey) r
        = { outputKey := r.outputKey, status := Status.failed,
            payload := none, pageWidth := none, pageHeight := none,
            error := some e }) := by
  refine ⟨?_, List.length_map _ _, ?_⟩
  · simp [runBatch, Nat.not_lt.mpr hn, hkeys]
  · intro r _ e he
    simp [resultOf, he]

/-- Witness for `runBatch_complete_and_isolated`: the five-request batch
whose `k3` request points at an unreachable host returns five results,
four SUCCEEDED and one FAILED carrying the navigation error. -/
theorem runBatch_complete_and_isolated_witness :
    (runBatch envs5 reqs5 3).1
      = Except.ok (reqs5.map (fun r => resultOf (envs5 r.outputKey) r)) ∧
    ((reqs5.map (fun r => resultOf (envs5 r.outputKey) r)).length = 5 ∧
     ((reqs5.map (fun r => resultOf (envs5 r.outputKey) r)).filter
        (fun res => decide (res.status = Status.succeeded))).length = 4 ∧
     ((reqs5.map (fun r => resultOf (envs5 r.outputKey) r)).filter
        (fun res => decide (res.status = Status.failed))).length = 1 ∧
     (resultOf (envs5 "k3") (mkReq "k3" "https://unreachable.invalid")).error
        = some (CapError.navigation "net::ERR_NAME_NOT_RESOLVED")) :=
  ⟨(runBatch_complete_and_isolated envs5 reqs5 3 (by decide) (by decide)).1,
   by decide, by decide, by decide, by decide⟩

/-- C8: a batch with a duplicated `outputKey`, or with a concurrency limit
below 1, is rejected outright with a validation error and performs no
Browser Capability call at all (empty call trace). -/
theorem runBatch_rejects_invalid_batch (envs : String → BrowserEnv)
    (reqs : List CaptureRequest) (n : Nat)
    (h : n < 1 ∨ ¬ (reqs.map (fun r => r.outputKey)).Nodup) :
    (runBatch envs reqs n).1
        = Except.error (CapError.validation "invalid batch") ∧
    (runBatch envs reqs n).2 = [] := by
  simp only [runBatch]
  rw [if_pos h]
  exact ⟨rfl, rfl⟩

/-- Witness for `runBatch_rejects_invalid_batch`: a two-request batch
sharing the key `k` is rejected with no browser call made. -/
theorem runBatch_rejects_invalid_batch_witness :
    (runBatch envs5 reqsDup 3).1
        = Except.error (CapError.validation "invalid batch") ∧
    (runBatch envs5 reqsDup 3).2 = [] :=
  runBatch_rejects_invalid_batch envs5 reqsDup 3 (Or.inr (by decide))

/-- One scheduler step keeps the number of checked-out handles at or
below the concurrency limit. -/
theorem schedStep_preserves_bound (c : Nat) (s t : SchedState)
    (hst : SchedStep c s t) (hs : checkedOut s ≤ c) : checkedOut t ≤ c := by
  cases hst with
  | start r rest running done hfree =>
      simpa [checkedOut] using hfree
  | finish pending pre post done r res =>
      simp only [checkedOut, List.length_append, List.length_cons] at hs ⊢
      omega

/-- C1: in every state the Batch Scheduler can reach from the start of a
batch run under concurrency limit `c ≥ 1`, at most `c` page handles are
checked out of the pool. -/
theorem scheduler_pool_bound (c : Nat) (reqs : List CaptureRequest)
    (s : SchedState) (hc : 1 ≤ c)
    (h : SchedReaches c (initState reqs) s) : checkedOut s ≤ c := by
  induction h with
  | refl => simp [checkedOut, initState]
  | tail t u hr hstep ih => exact schedStep_preserves_bound c t u hstep ih

/-- Witness for `scheduler_pool_bound` at the initial state of the
five-request batch under limit 1. -/
theorem scheduler_pool_bound_witness : checkedOut (initState reqs5) ≤ 1 :=
  scheduler_pool_bound 1 reqs5 (initState reqs5) (by decide)
    (SchedReaches.refl _)

/-- C7: `compareArtifacts` computes `differencePercent` as
`100 * |size(current) - size(previous)| / max(size(previous), 1)` over
payload byte lengths, sets `changed` exactly when it exceeds the
threshold (default 5), and comparing an artifact against itself yields
`differencePercent = 0` and `changed = false`. -/
theorem compareArtifacts_formula_and_self (previous current a : Artifact) :
    (compareArtifacts defaultThreshold previous current).differencePercent
      = 100 * ((Int.natAbs ((artifactSize current : Int)
            - (artifactSize previous : Int)) : ℚ))
          / ((max (artifactSize previous) 1 : Nat) : ℚ) ∧
    ((compareArtifacts defaultThreshold previous current).changed = true ↔
      (compareArtifacts defaultThreshold previous current).differencePercent
        > defaultThreshold) ∧
    defaultThreshold = 5 ∧
    (compareArtifacts defaultThreshold a a).differencePercent = 0 ∧
    (compareArtifacts defaultThreshold a a).changed = false := by
  refine ⟨rfl, ?_, rfl, ?_, ?_⟩
  · simp [compareArtifacts]
  · simp [compareArtifacts]
  · simp [compareArtifacts, defaultThreshold]
